import Mathlib

/-
Verification development for the ExcelAI backend core: a shallow embedding of
the Plan Interpreter (app/services/transformer.py), the Plan Acquisition
Oracle's normalization and sanitization layer (app/services/llm_planner.py)
and the Quota Ledger (app/services/usage_limiter.py), with theorems checking
the natural-language specification against these definitions.
-/

namespace ExcelAI

/-- Python/JSON values as they flow through plan payloads and dataset cells.
Floats are modelled as exact rationals; pandas missing values (None/NaN/NA)
collapse to vNull; datetimes carry their rendered form. -/
inductive Value where
  | vNull
  | vBool (b : Bool)
  | vInt (n : Int)
  | vFloat (q : Rat)
  | vStr (s : String)
  | vDate (iso : String)
  | vList (items : List Value)
  | vObj (fields : List (String × Value))

/-- Embeds `dict.get(key)`: first binding for the key, `none` when absent or when the
value is not a dict. -/
def getField : Value → String → Option Value
  | .vObj fields, key => fields.lookup key
  | _, _ => none

/-- Python truthiness of an optional value (`None` and missing are falsy). -/
def isTruthy : Option Value → Bool
  | none => false
  | some .vNull => false
  | some (.vBool b) => b
  | some (.vInt n) => n != 0
  | some (.vFloat q) => q != 0
  | some (.vStr s) => s != ""
  | some (.vDate _) => true
  | some (.vList items) => !items.isEmpty
  | some (.vObj fields) => !fields.isEmpty

/-! ## Python string primitives

Structural embeddings of `str.strip`, `str.lower`, `str.upper`, `str.title`
on the character list of a string (ASCII case mapping). -/

def isWsChar (c : Char) : Bool :=
  c == ' ' || c == '\t' || c == '\n' || c == '\r' || c == '\x0b' || c == '\x0c'

/-- Embeds `str.strip()`. -/
def pyStrip (s : String) : String :=
  String.mk (((s.data.dropWhile isWsChar).reverse.dropWhile isWsChar).reverse)

/-- Embeds `str.lower()`. -/
def pyLower (s : String) : String :=
  String.mk (s.data.map Char.toLower)

/-- Embeds `str.upper()`. -/
def pyUpper (s : String) : String :=
  String.mk (s.data.map Char.toUpper)

/-! ## Quota Ledger (usage_limiter.py) -/

/-- The usage table: one row per normalized user id, `(user_id, usage_count,
updated_at)`. -/
abbrev UsageStore := List (String × Nat × String)

/-- Embeds `UsageLimiter._clean_user_id` (`user_id.strip().lower()`). -/
def cleanUserId (userId : String) : String :=
  pyLower (pyStrip userId)

/-- The `SELECT usage_count FROM usage WHERE user_id = ?` row, if any. -/
def storeLookup (store : UsageStore) (clean : String) : Option (Nat × String) :=
  (store.find? (fun r => r.1 == clean)).map (·.2)

/-- Embeds `UsageLimiter.get_usage`. -/
def getUsage (store : UsageStore) (userId : String) : Nat :=
  match storeLookup store (cleanUserId userId) with
  | some r => r.1
  | none => 0

/-- Embeds `UsageLimiter.get_remaining` (`max(0, max_uses - usage)`). -/
def getRemaining (maxUses : Nat) (store : UsageStore) (userId : String) : Nat :=
  maxUses - getUsage store userId

/-- Embeds `UsageLimiter.can_consume`. -/
def canConsume (maxUses : Nat) (store : UsageStore) (userId : String) : Bool :=
  getUsage store userId < maxUses

/-- UPDATE-or-INSERT of the per-user row inside `consume`. -/
def upsertUsage (store : UsageStore) (clean : String) (count : Nat) (now : String) :
    UsageStore :=
  if store.any (fun r => r.1 == clean) then
    store.map (fun r => if r.1 == clean then (clean, count, now) else r)
  else
    store ++ [(clean, count, now)]

/-- Embeds `UsageLimiter.consume`: the read-check-increment transaction, returning
`((new_usage, remaining), store')`. -/
def consume (maxUses : Nat) (store : UsageStore) (userId : String) (now : String) :
    (Nat × Nat) × UsageStore :=
  let clean := cleanUserId userId
  let usageCount := match storeLookup store clean with
    | some r => r.1
    | none => 0
  if usageCount ≥ maxUses then
    ((usageCount, 0), store)
  else
    let newUsage := usageCount + 1
    ((newUsage, maxUses - newUsage), upsertUsage store clean newUsage now)

theorem consume_eq (L : Nat) (store : UsageStore) (u now : String) :
    consume L store u now =
      if getUsage store u ≥ L then ((getUsage store u, 0), store)
      else ((getUsage store u + 1, L - (getUsage store u + 1)),
        upsertUsage store (cleanUserId u) (getUsage store u + 1) now) := rfl

theorem find?_map_replace (clean : String) (x : String × Nat × String)
    (hx : (x.1 == clean) = true) :
    ∀ store : UsageStore, store.any (fun r => r.1 == clean) = true →
      (store.map (fun r => if r.1 == clean then x else r)).find?
        (fun r => r.1 == clean) = some x := by
  intro store
  induction store with
  | nil => intro h; simp at h
  | cons hd tl ih =>
    intro hmem
    by_cases hhd : (hd.1 == clean) = true
    · simp [List.find?, hhd, hx]
    · have hhd' : (hd.1 == clean) = false := by simpa using hhd
      simp only [List.map_cons, List.find?, hhd', Bool.false_eq_true, if_false]
      exact ih (by simpa [List.any_cons, hhd'] using hmem)

theorem storeLookup_upsert (store : UsageStore) (clean : String) (count : Nat)
    (now : String) :
    storeLookup (upsertUsage store clean count now) clean = some (count, now) := by
  unfold upsertUsage storeLookup
  by_cases hmem : store.any (fun r => r.1 == clean) = true
  · rw [if_pos hmem, find?_map_replace clean (clean, count, now) (by simp) store hmem]
    rfl
  · rw [if_neg hmem, List.find?_append]
    have hnone : store.find? (fun r => r.1 == clean) = none := by
      rw [List.find?_eq_none]
      intro r hr hb
      exact hmem (List.any_eq_true.mpr ⟨r, hr, hb⟩)
    rw [hnone]
    simp [List.find?]

theorem getUsage_upsert (store : UsageStore) (u : String) (count : Nat)
    (now : String) :
    getUsage (upsertUsage store (cleanUserId u) count now) u = count := by
  unfold getUsage
  rw [storeLookup_upsert]

/-- C1: `consume` reads the current count; at or above the limit it performs no
mutation and returns the unchanged count with remaining 0; below the limit it
increments the stored count by exactly one and returns the new count with
remaining `L - newCount`. With limit 2, three sequential calls for user "X"
return (1,1), (2,0), (2,0) and the third call leaves the store unchanged. -/
theorem c1_consume_quota (L : Nat) (store : UsageStore) (u now t1 t2 t3 : String) :
    (getUsage store u ≥ L → consume L store u now = ((getUsage store u, 0), store)) ∧
    (getUsage store u < L →
      consume L store u now =
        ((getUsage store u + 1, L - (getUsage store u + 1)),
          upsertUsage store (cleanUserId u) (getUsage store u + 1) now) ∧
      getUsage (consume L store u now).2 u = getUsage store u + 1) ∧
    ((consume 2 [] "X" t1).1 = (1, 1) ∧
     (consume 2 (consume 2 [] "X" t1).2 "X" t2).1 = (2, 0) ∧
     (consume 2 (consume 2 (consume 2 [] "X" t1).2 "X" t2).2 "X" t3).1 = (2, 0) ∧
     (consume 2 (consume 2 (consume 2 [] "X" t1).2 "X" t2).2 "X" t3).2 =
       (consume 2 (consume 2 [] "X" t1).2 "X" t2).2) := by
  refine ⟨?_, ?_, rfl, rfl, rfl, rfl⟩
  · intro h
    rw [consume_eq, if_pos h]
  · intro h
    have hnot : ¬ getUsage store u ≥ L := Nat.not_le.mpr h
    refine ⟨by rw [consume_eq, if_neg hnot], ?_⟩
    rw [consume_eq, if_neg hnot]
    exact getUsage_upsert store u (getUsage store u + 1) now

/-- Witness for C1 at a concrete input: first consumption for a fresh user
with limit 3 stores count 1 and reports remaining 2. -/
theorem c1_consume_quota_witness :
    consume 3 [] "Uvw" "t0" = ((1, 2), [("uvw", 1, "t0")]) := by
  have h := (c1_consume_quota 3 [] "Uvw" "t0" "a" "b" "c").2.1 (by decide)
  exact h.1

/-! ## Plan Interpreter (transformer.py)

A Dataset is an ordered sequence of named columns; pandas column labels are
modelled as strings and pandas missing values as `vNull`. A
`TransformationError` raised by the source is `TransErr.transform`; an
exception escaping from the underlying libraries is `TransErr.fault`. -/

abbrev Dataset := List (String × List Value)

inductive TransErr where
  | transform (msg : String)
  | fault (msg : String)

def supportedOperations : List String :=
  ["rename_column", "drop_columns", "fill_null", "cast_type", "trim_whitespace",
   "change_case", "derive_numeric", "filter_rows", "sort_rows"]

def colNames (d : Dataset) : List String := d.map (·.1)

def hasCol (d : Dataset) (name : String) : Bool :=
  d.any (fun c => c.1 == name)

/-- Embeds `df[name]`: the first column carrying the label. -/
def colValues (d : Dataset) (name : String) : List Value :=
  match d.find? (fun c => c.1 == name) with
  | some c => c.2
  | none => []

/-- Whether an operation field value names a present column (a non-string field
value can never match a string column label). -/
def hasColV (d : Dataset) (v : Value) : Bool :=
  match v with
  | .vStr s => hasCol d s
  | _ => false

def isNullV : Value → Bool
  | .vNull => true
  | _ => false

/-- Python `str(value)` as used for cell rendering (container repr elided). -/
def pyStr : Value → String
  | .vNull => "None"
  | .vBool b => if b then "True" else "False"
  | .vInt n => toString n
  | .vFloat q => if q.den = 1 then toString q.num ++ ".0" else toString q
  | .vStr s => s
  | .vDate iso => iso
  | .vList _ => "object"
  | .vObj _ => "object"

def nameOfV : Value → String
  | .vStr s => s
  | v => pyStr v

/-- Embeds `_require_columns`. -/
def requireColumns (d : Dataset) (cols : List Value) : Except TransErr Unit :=
  let missing := cols.filter (fun v => !(hasColV d v))
  if missing.isEmpty then .ok ()
  else .error (.transform
    ("Missing columns: " ++ String.intercalate ", " (missing.map nameOfV)))

/-! ### Numeric coercion (`pd.to_numeric(errors="coerce")`) -/

def digitsToNat (cs : List Char) : Nat :=
  cs.foldl (fun a c => a * 10 + (c.toNat - 48)) 0

def splitOnDot : List Char → (List Char × Option (List Char))
  | [] => ([], none)
  | c :: rest =>
    if c == '.' then ([], some rest)
    else
      let p := splitOnDot rest
      (c :: p.1, p.2)

/-- Decimal numeral parsing of a string cell (sign, digits, optional single
decimal point); anything else coerces to missing. -/
def parseNumString (s : String) : Option Rat :=
  let t := (pyStrip s).data
  let signed : Bool × List Char :=
    match t with
    | '-' :: r => (true, r)
    | '+' :: r => (false, r)
    | r => (false, r)
  let p := splitOnDot signed.2
  match p.2 with
  | none =>
      if p.1 ≠ [] ∧ p.1.all Char.isDigit then
        let mag : Rat := (digitsToNat p.1 : Nat)
        some (if signed.1 then -mag else mag)
      else none
  | some frac =>
      if (p.1 ≠ [] ∨ frac ≠ []) ∧ p.1.all Char.isDigit ∧ frac.all Char.isDigit then
        let mag : Rat :=
          (digitsToNat p.1 : Nat) + (digitsToNat frac : Nat) / ((10 : Rat) ^ frac.length)
        some (if signed.1 then -mag else mag)
      else none

def toNumeric : Value → Option Rat
  | .vInt n => some (n : Rat)
  | .vFloat q => some q
  | .vBool b => some (if b then 1 else 0)
  | .vStr s => parseNumString s
  | _ => none

/-! ### Rounding (`Series.round`, numpy round-half-to-even) -/

def roundHalfEven (q : Rat) : Int :=
  let f := ⌊q⌋
  let r := q - (f : Rat)
  if r < 1/2 then f
  else if (1 : Rat)/2 < r then f + 1
  else if f % 2 = 0 then f else f + 1

def pow10 (n : Int) : Rat :=
  if 0 ≤ n then ((10 : Rat) ^ n.toNat) else 1 / ((10 : Rat) ^ (-n).toNat)

def roundToDigits (n : Int) (q : Rat) : Rat :=
  (roundHalfEven (q * pow10 n) : Rat) / pow10 n

/-! ### `_cast_series` -/

def castToString (v : Value) : Value :=
  match v with
  | .vNull => .vNull
  | _ => .vStr (pyStr v)

def castInt64 (vs : List Value) : Except TransErr (List Value) :=
  let nums := vs.map toNumeric
  if nums.any (fun o => match o with | some q => q.den ≠ 1 | none => false) then
    .error (.fault "cannot safely cast non-integral values to Int64")
  else
    .ok (nums.map (fun o => match o with | some q => .vInt q.num | none => .vNull))

def isIsoDate (s : String) : Bool :=
  match (pyStrip s).splitOn "-" with
  | [y, m, d] =>
      y.length == 4 && y.data.all Char.isDigit &&
      m.length == 2 && m.data.all Char.isDigit &&
      d.length == 2 && d.data.all Char.isDigit
  | _ => false

/-- Embeds `pd.to_datetime(errors="coerce")`, modelled on ISO dates; unparseable
values coerce to missing. -/
def castToDatetime (v : Value) : Value :=
  match v with
  | .vNull => .vNull
  | .vDate iso => .vDate iso
  | .vStr s => if isIsoDate s then .vDate (pyStrip s) else .vNull
  | .vInt n => .vDate (toString n)
  | .vFloat q => .vDate (pyStr (.vFloat q))
  | _ => .vNull

def truthyTokens : List String := ["true", "1", "yes", "y", "t"]
def falsyTokens : List String := ["false", "0", "no", "n", "f"]

def castToBool (v : Value) : Value :=
  match v with
  | .vNull => .vNull
  | .vBool b => .vBool b
  | .vInt n => .vBool (n != 0)
  | .vFloat q => .vBool (q != 0)
  | _ =>
      let text := pyLower (pyStrip (pyStr v))
      if text ∈ truthyTokens then .vBool true
      else if text ∈ falsyTokens then .vBool false
      else .vNull

def castSeries (vs : List Value) (dtype : String) : Except TransErr (List Value) :=
  match dtype with
  | "string" => .ok (vs.map castToString)
  | "int64" => castInt64 vs
  | "float64" => .ok (vs.map (fun v =>
      match toNumeric v with
      | some q => .vFloat q
      | none => .vNull))
  | "datetime" => .ok (vs.map castToDatetime)
  | "bool" => .ok (vs.map castToBool)
  | _ => .error (.transform "dtype must be one of: string, int64, float64, datetime, bool")

/-! ### The nine operation branches of `apply_plan` -/

/-- Embeds `dict.get(key)` on an operation object. -/
def opField (op : Value) (key : String) : Option Value := getField op key

def renameColumnOp (d : Dataset) (op : Value) : Except TransErr Dataset :=
  let source := opField op "from"
  let target := opField op "to"
  if isTruthy source && isTruthy target then
    match source, target with
    | some (.vStr s), some tv =>
        (requireColumns d [.vStr s]).map (fun _ =>
          d.map (fun c => (if c.1 = s then nameOfV tv else c.1, c.2)))
    | some sv, _ =>
        (requireColumns d [sv]).map (fun _ => d)
    | none, _ => .error (.transform "rename_column requires from and to.")
  else
    .error (.transform "rename_column requires from and to.")

def memNameV (cols : List Value) (name : String) : Bool :=
  cols.any (fun v => match v with | .vStr s => s == name | _ => false)

def dropColumnsOp (d : Dataset) (op : Value) : Except TransErr Dataset :=
  match (opField op "columns").getD (.vList []) with
  | .vList cols =>
      if cols.isEmpty then .error (.transform "drop_columns requires non-empty columns.")
      else (requireColumns d cols).map (fun _ =>
        d.filter (fun c => !(memNameV cols c.1)))
  | _ => .error (.transform "drop_columns requires non-empty columns.")

def fillNullOp (d : Dataset) (op : Value) : Except TransErr Dataset :=
  match opField op "column" with
  | some (.vStr column) =>
      (requireColumns d [.vStr column]).bind (fun _ =>
        match opField op "value" with
        | some v =>
            if isNullV v then .error (.fault "fillna requires a fill value")
            else .ok (d.map (fun c =>
              if c.1 = column then (c.1, c.2.map (fun x => if isNullV x then v else x))
              else c))
        | none => .error (.fault "fillna requires a fill value"))
  | _ => .error (.transform "fill_null requires column.")

def castTypeOp (d : Dataset) (op : Value) : Except TransErr Dataset :=
  match opField op "column", opField op "dtype" with
  | some (.vStr column), some (.vStr dtype) =>
      (requireColumns d [.vStr column]).bind (fun _ =>
        (castSeries (colValues d column) dtype).map (fun out =>
          d.map (fun c => if c.1 = column then (c.1, out) else c)))
  | _, _ => .error (.transform "cast_type requires column and dtype.")

def trimWhitespaceOp (d : Dataset) (op : Value) : Except TransErr Dataset :=
  match (opField op "columns").getD (.vList []) with
  | .vList cols =>
      if cols.isEmpty then .error (.transform "trim_whitespace requires non-empty columns.")
      else (requireColumns d cols).map (fun _ =>
        d.map (fun c =>
          if memNameV cols c.1 then
            (c.1, c.2.map (fun x => match x with | .vStr s => .vStr (pyStrip s) | _ => x))
          else c))
  | _ => .error (.transform "trim_whitespace requires non-empty columns.")

def pyTitle (s : String) : String :=
  String.mk ((s.data.foldl (fun (acc : List Char × Bool) c =>
    if c.isAlpha then
      ((if acc.2 then c.toLower else c.toUpper) :: acc.1, true)
    else (c :: acc.1, false)) ([], false)).1.reverse)

def applyCase (caseKind : String) (x : Value) : Value :=
  match x with
  | .vStr s =>
      .vStr (match caseKind with
        | "upper" => pyUpper s
        | "lower" => pyLower s
        | _ => pyTitle s)
  | _ => x

def changeCaseOp (d : Dataset) (op : Value) : Except TransErr Dataset :=
  match (opField op "columns").getD (.vList []) with
  | .vList cols =>
      if cols.isEmpty then .error (.transform "change_case requires non-empty columns.")
      else
        match opField op "case" with
        | some (.vStr caseKind) =>
            if caseKind ∈ ["upper", "lower", "title"] then
              (requireColumns d cols).map (fun _ =>
                d.map (fun c =>
                  if memNameV cols c.1 then (c.1, c.2.map (applyCase caseKind))
                  else c))
            else .error (.transform "change_case.case must be upper, lower, or title.")
        | _ => .error (.transform "change_case.case must be upper, lower, or title.")
  | _ => .error (.transform "change_case requires non-empty columns.")

/-- The element-wise arithmetic of `derive_numeric`: operands coerced to
numeric, a zero denominator replaced by missing before dividing. -/
def deriveOutput (operator : String) (ls rs : List Value) : List Value :=
  List.zipWith (fun l r =>
    let a := toNumeric l
    let b :=
      if operator = "div" then
        match toNumeric r with
        | some q => if q = 0 then none else some q
        | none => none
      else toNumeric r
    match a, b with
    | some x, some y =>
        .vFloat (match operator with
          | "add" => x + y
          | "sub" => x - y
          | "mul" => x * y
          | _ => x / y)
    | _, _ => .vNull) ls rs

/-- Embeds `transformed.loc[:, name] = vs`: replace the column when the label exists,
otherwise append it. -/
def assignCol (d : Dataset) (name : String) (vs : List Value) : Dataset :=
  if hasCol d name then d.map (fun c => if c.1 = name then (c.1, vs) else c)
  else d ++ [(name, vs)]

/-- Python `isinstance(value, int)` (bool is an int subclass). -/
def isIntLike : Value → Bool
  | .vInt _ => true
  | .vBool _ => true
  | _ => false

def intLikeVal : Value → Int
  | .vInt n => n
  | .vBool b => if b then 1 else 0
  | _ => 0

def deriveNumericOp (d : Dataset) (op : Value) : Except TransErr Dataset :=
  match opField op "left_column", opField op "right_column", opField op "new_column" with
  | some (.vStr leftColumn), some (.vStr rightColumn), some (.vStr newColumn) =>
      match opField op "operator" with
      | some (.vStr operator) =>
          if operator ∈ ["add", "sub", "mul", "div"] then
            (requireColumns d [.vStr leftColumn, .vStr rightColumn]).map (fun _ =>
              let output := deriveOutput operator
                (colValues d leftColumn) (colValues d rightColumn)
              let rounded :=
                match opField op "round" with
                | some rv =>
                    if isIntLike rv then
                      output.map (fun v =>
                        match v with
                        | .vFloat q => .vFloat (roundToDigits (intLikeVal rv) q)
                        | _ => v)
                    else output
                | none => output
              assignCol d newColumn rounded)
          else .error (.transform "derive_numeric.operator must be add, sub, mul, or div.")
      | _ => .error (.transform "derive_numeric.operator must be add, sub, mul, or div.")
  | _, _, _ =>
      .error (.transform "derive_numeric requires left_column, right_column, and new_column.")

/-- Numeric view used by Python comparison semantics (True == 1, 1 == 1.0). -/
def numVal : Value → Option Rat
  | .vInt n => some (n : Rat)
  | .vFloat q => some q
  | .vBool b => some (if b then 1 else 0)
  | _ => none

/-- Element-wise `==` of a cell against the filter value (missing never
compares equal). -/
def valueEq (a b : Value) : Bool :=
  match numVal a, numVal b with
  | some x, some y => x == y
  | _, _ =>
      match a, b with
      | .vStr s, .vStr t => s == t
      | .vDate s, .vDate t => s == t
      | _, _ => false

def applyMask (vs : List Value) (mask : List Bool) : List Value :=
  ((vs.zip mask).filter (fun p => p.2)).map (·.1)

def filterByMask (d : Dataset) (mask : List Bool) : Dataset :=
  d.map (fun c => (c.1, applyMask c.2 mask))

def filterRowsOp (d : Dataset) (op : Value) : Except TransErr Dataset :=
  match opField op "column", opField op "comparator" with
  | some (.vStr column), some (.vStr comparator) =>
      if comparator ∈ ["eq", "neq", "gt", "gte", "lt", "lte"] then
        (requireColumns d [.vStr column]).bind (fun _ =>
          let series := colValues d column
          let value := (opField op "value").getD .vNull
          if comparator = "eq" then
            .ok (filterByMask d (series.map (fun x => valueEq x value)))
          else if comparator = "neq" then
            .ok (filterByMask d (series.map (fun x => !valueEq x value)))
          else
            match numVal value with
            | some v =>
                .ok (filterByMask d (series.map (fun x =>
                  match toNumeric x with
                  | some q =>
                      if comparator = "gt" then decide (v < q)
                      else if comparator = "gte" then decide (v ≤ q)
                      else if comparator = "lt" then decide (q < v)
                      else decide (q ≤ v)
                  | none => false)))
            | none => .error (.fault "ordering comparison against a non-numeric value"))
      else .error (.transform "filter_rows requires column and comparator in eq, neq, gt, gte, lt, lte.")
  | _, _ => .error (.transform "filter_rows requires column and comparator in eq, neq, gt, gte, lt, lte.")

/-! ### `sort_rows` -/

def nRows (d : Dataset) : Nat :=
  match d with
  | [] => 0
  | c :: _ => c.2.length

/-- Keys of one sort column are mutually comparable when the non-missing
values are all numeric or all strings (mixed kinds raise in pandas). -/
def sortKindOk (vs : List Value) : Bool :=
  let nonNull := vs.filter (fun v => !isNullV v)
  nonNull.all (fun v => (numVal v).isSome) ||
    nonNull.all (fun v => match v with | .vStr _ => true | _ => false)

def cmpRat (x y : Rat) : Ordering :=
  if x < y then .lt else if y < x then .gt else .eq

/-- Cell comparison for sorting: missing values sort last regardless of
direction (`na_position="last"`). -/
def cmpCell (asc : Bool) (a b : Value) : Ordering :=
  match isNullV a, isNullV b with
  | true, true => .eq
  | true, false => .gt
  | false, true => .lt
  | false, false =>
      let o :=
        match numVal a, numVal b with
        | some x, some y => cmpRat x y
        | _, _ =>
            match a, b with
            | .vStr s, .vStr t => compare s t
            | _, _ => .eq
      if asc then o else o.swap

def rowCmp (asc : Bool) (keys : List (List Value)) (i j : Nat) : Ordering :=
  keys.foldl (fun o col =>
    match o with
    | .eq => cmpCell asc (col.getD i .vNull) (col.getD j .vNull)
    | _ => o) .eq

def rowLe (asc : Bool) (keys : List (List Value)) (i j : Nat) : Bool :=
  match rowCmp asc keys i j with
  | .gt => false
  | _ => true

/-- Stable insertion sort: an element is inserted before the first existing
element it is `le`-below, so equal keys keep their original order. -/
def insertLe {α : Type} (le : α → α → Bool) (x : α) : List α → List α
  | [] => [x]
  | y :: ys => if le x y then x :: y :: ys else y :: insertLe le x ys

def sortByLe {α : Type} (le : α → α → Bool) (l : List α) : List α :=
  l.foldr (insertLe le) []

def byName : Value → String
  | .vStr s => s
  | _ => ""

def sortRowsOp (d : Dataset) (op : Value) : Except TransErr Dataset :=
  match (opField op "by").getD (.vList []) with
  | .vList bys =>
      if bys.isEmpty then .error (.transform "sort_rows requires non-empty by list.")
      else
        match (opField op "ascending").getD (.vBool true) with
        | .vBool asc =>
            (requireColumns d bys).bind (fun _ =>
              let keyCols := bys.map (fun v => colValues d (byName v))
              if keyCols.all sortKindOk then
                let perm := sortByLe (rowLe asc keyCols) (List.range (nRows d))
                .ok (d.map (fun c => (c.1, perm.map (fun i => c.2.getD i .vNull))))
              else .error (.fault "sort comparison failed for mixed value kinds"))
        | _ => .error (.transform "sort_rows.ascending must be boolean.")
  | _ => .error (.transform "sort_rows requires non-empty by list.")

/-! ### `_validate_plan` and `apply_plan` -/

def opTypeOf (op : Value) : String :=
  match getField op "type" with
  | some (.vStr s) => s
  | _ => ""

def validateOps : List Value → Except TransErr Unit
  | [] => .ok ()
  | op :: rest =>
      match op with
      | .vObj _ =>
          match getField op "type" with
          | some (.vStr s) =>
              if s ∈ supportedOperations then validateOps rest
              else .error (.transform "Unsupported operation type")
          | _ => .error (.transform "Unsupported operation type")
      | _ => .error (.transform "Each operation must be an object.")

def validatePlan (plan : Value) : Except TransErr (List Value) :=
  match getField plan "operations" with
  | some (.vList ops) => (validateOps ops).map (fun _ => ops)
  | _ => .error (.transform "Plan must contain an operations list.")

def applyOp (d : Dataset) (op : Value) : Except TransErr Dataset :=
  match opTypeOf op with
  | "rename_column" => renameColumnOp d op
  | "drop_columns" => dropColumnsOp d op
  | "fill_null" => fillNullOp d op
  | "cast_type" => castTypeOp d op
  | "trim_whitespace" => trimWhitespaceOp d op
  | "change_case" => changeCaseOp d op
  | "derive_numeric" => deriveNumericOp d op
  | "filter_rows" => filterRowsOp d op
  | "sort_rows" => sortRowsOp d op
  | _ => .ok d

def applyOps : Dataset → List Value → Except TransErr Dataset
  | d, [] => .ok d
  | d, op :: rest => (applyOp d op).bind (fun dNext => applyOps dNext rest)

/-- Embeds `apply_plan`. -/
def applyPlan (d : Dataset) (plan : Value) : Except TransErr Dataset :=
  (validatePlan plan).bind (fun ops => applyOps d ops)

/-! ## Plan Acquisition Oracle (llm_planner.py)

The external service call is modelled by its observable outcome: no client
configured, an exception with an optional upstream status code, or a response
whose JSON-parsed content is an optional value. `uuid4().hex` is modelled by
the `fresh` parameter threaded to every clarification constructor. -/

def genericClarifyQuestion : String :=
  "La richiesta non e ancora chiara. Vuoi procedere con impostazioni consigliate?"

def genericClarifyChoices : List String :=
  ["Si, usa impostazioni consigliate", "No, preferisco specificare meglio"]

def authClarifyQuestion : String :=
  "Non riesco ad autenticarmi al provider LLM. Vuoi riprovare con un prompt piu specifico?"

def authClarifyChoices : List String :=
  ["Riprova ora", "Modifica prompt"]

/-- The filter used by `_sanitize_plan_payload`: keep operation objects whose
`type` is one of the nine supported kinds. -/
def keepOperation (op : Value) : Bool :=
  match op with
  | .vObj _ =>
      match getField op "type" with
      | some (.vStr s) => decide (s ∈ supportedOperations)
      | _ => false
  | _ => false

def sanitizedOpsList (raw : Option Value) : List Value :=
  match raw with
  | some (.vObj fields) =>
      (match fields.lookup "operations" with
       | some (.vList ops) => ops.filter keepOperation
       | _ => [])
  | _ => []

/-- Embeds `LLMPlanner._sanitize_plan_payload`. -/
def sanitizePlanPayload (raw : Option Value) : Value :=
  .vObj [("operations", .vList (sanitizedOpsList raw))]

/-- Embeds `LLMPlanner._normalize_choices`. -/
def normalizeChoices (raw : Option Value) : List String :=
  match raw with
  | some (.vList cs) =>
      cs.filterMap (fun c =>
        match c with
        | .vStr s => if pyStrip s ≠ "" then some (pyStrip s) else none
        | _ => none)
  | _ => []

/-- Embeds `LLMPlanner._clarify_response`. -/
def clarifyResponse (question : String) (choices : List String)
    (clarifyId : Option String) (fresh : String) : Value :=
  .vObj [("type", .vStr "clarify"),
         ("question", .vStr (pyStrip question)),
         ("choices", .vList ((choices.take 4).map .vStr)),
         ("clarify_id", .vStr (match clarifyId with
            | some s => if pyStrip s ≠ "" then pyStrip s else fresh
            | none => fresh))]

/-- Embeds `LLMPlanner._normalize_llm_payload`. -/
def normalizeLlmPayload (payload : Value) (clarifyId : Option String)
    (fresh : String) : Value :=
  match getField payload "type" with
  | some (.vStr "clarify") =>
      let question :=
        match getField payload "question" with
        | some (.vStr q) => if pyStrip q ≠ "" then q else genericClarifyQuestion
        | _ => genericClarifyQuestion
      let normalized := normalizeChoices (getField payload "choices")
      let choices := if normalized.isEmpty then genericClarifyChoices else normalized
      let rawClarifyId :=
        match getField payload "clarify_id" with
        | some (.vStr s) => some s
        | _ => clarifyId
      clarifyResponse question choices rawClarifyId fresh
  | some (.vStr "plan") =>
      let ops := sanitizedOpsList (getField payload "plan")
      if !ops.isEmpty then
        .vObj [("type", .vStr "plan"),
               ("plan", sanitizePlanPayload (getField payload "plan")),
               ("warnings", .vList [])]
      else
        clarifyResponse genericClarifyQuestion genericClarifyChoices clarifyId fresh
  | _ => clarifyResponse genericClarifyQuestion genericClarifyChoices clarifyId fresh

/-- Observable outcome of the one external text-generation call. -/
inductive LLMOutcome where
  | noClient
  | raised (status : Option Int)
  | responded (parsed : Option Value)

/-- Embeds `LLMPlanner._create_plan_internal`. -/
def createPlanInternal (outcome : LLMOutcome) (clarifyId : Option String)
    (fresh : String) : Value :=
  match outcome with
  | .noClient =>
      clarifyResponse genericClarifyQuestion genericClarifyChoices clarifyId fresh
  | .raised status =>
      if status = some 401 ∨ status = some 403 then
        clarifyResponse authClarifyQuestion authClarifyChoices clarifyId fresh
      else
        clarifyResponse genericClarifyQuestion genericClarifyChoices clarifyId fresh
  | .responded parsed =>
      match parsed with
      | some (.vObj fields) => normalizeLlmPayload (.vObj fields) clarifyId fresh
      | _ => clarifyResponse genericClarifyQuestion genericClarifyChoices clarifyId fresh

/-- A well-formed ClarificationRequest payload. -/
def isClarifyShaped (v : Value) : Bool :=
  match getField v "type", getField v "question", getField v "choices",
      getField v "clarify_id" with
  | some (.vStr "clarify"), some (.vStr _), some (.vList _), some (.vStr _) => true
  | _, _, _, _ => false

/-- A well-formed Plan payload. -/
def isPlanShaped (v : Value) : Bool :=
  match getField v "type", getField v "plan", getField v "warnings" with
  | some (.vStr "plan"), some (.vObj _), some (.vList _) => true
  | _, _, _ => false

/-! ## Claims about the Interpreter boundary -/

def emptyOpsPlan : Value := .vObj [("operations", .vList [])]

/-- C2 counterexample: `apply_plan` accepts the empty-operations Plan and
returns a Dataset (the input, unchanged) instead of rejecting it with a
ValidationError. -/
theorem c2_empty_plan_counterexample :
    applyPlan [("a", [Value.vInt 1])] emptyOpsPlan =
      Except.ok [("a", [Value.vInt 1])] := rfl

/-- C2 amended: for every Dataset, `apply_plan` on a Plan with an empty
operations list validates it, executes nothing, and returns the input Dataset
unchanged; the empty-operations rejection happens in the HTTP transform
endpoint before `apply_plan` is called, not inside the Interpreter. -/
theorem c2_empty_plan_returns_input (d : Dataset) :
    applyPlan d emptyOpsPlan = Except.ok d := rfl

def mkRenamePlan (src tgt : String) : Value :=
  .vObj [("operations", .vList [.vObj
    [("type", .vStr "rename_column"), ("from", .vStr src), ("to", .vStr tgt)]])]

/-- C3 failing input: renaming column "a" to the already-present name "b"
succeeds and yields a Dataset whose column names are no longer unique, so
`apply_plan` returns a Dataset violating the unique-column-names invariant. -/
theorem c3_rename_collision_duplicates :
    applyPlan [("a", [Value.vInt 1]), ("b", [Value.vInt 2])] (mkRenamePlan "a" "b") =
      Except.ok [("b", [Value.vInt 1]), ("b", [Value.vInt 2])] ∧
    ¬ (colNames [("b", [Value.vInt 1]), ("b", [Value.vInt 2])]).Nodup :=
  ⟨rfl, by decide⟩

/-- C8 counterexample: a Dataset may carry the empty string as a column name,
and `rename_column` with `from == to == ""` then fails the falsy-field check
and raises a TransformationError instead of returning the Dataset unchanged. -/
theorem c8_empty_name_counterexample :
    applyPlan [("", [Value.vInt 1])] (mkRenamePlan "" "") =
      Except.error (TransErr.transform "rename_column requires from and to.") := rfl

theorem map_rename_id (c : String) (d : Dataset) :
    d.map (fun col => ((if col.1 = c then c else col.1), col.2)) = d := by
  induction d with
  | nil => rfl
  | cons hd tl ih =>
    simp only [List.map_cons, ih]
    by_cases h : hd.1 = c
    · rw [if_pos h, ← h]
    · rw [if_neg h]

/-- C8 amended: for every Dataset containing a column with a non-empty name
`c`, applying `rename_column` with `from == to == c` returns the Dataset
unchanged (same columns, same order, same values). -/
theorem c8_rename_identity (d : Dataset) (c : String) (hne : c ≠ "")
    (hc : hasCol d c = true) :
    applyPlan d (mkRenamePlan c c) = Except.ok d := by
  have hreq : requireColumns d [Value.vStr c] = Except.ok () := by
    simp [requireColumns, hasColV, hc]
  show (renameColumnOp d (Value.vObj
      [("type", Value.vStr "rename_column"), ("from", Value.vStr c),
        ("to", Value.vStr c)])).bind (fun dn => Except.ok dn) = Except.ok d
  simp only [renameColumnOp, opField, getField, List.lookup, isTruthy, hreq,
    nameOfV, Except.map, Except.bind]
  simp [hne, map_rename_id]
  rw [hreq]

/-- Witness for C8 at a concrete input: renaming "a" to itself leaves a
one-column Dataset unchanged. -/
theorem c8_rename_identity_witness :
    applyPlan [("a", [Value.vInt 1])] (mkRenamePlan "a" "a") =
      Except.ok [("a", [Value.vInt 1])] :=
  c8_rename_identity [("a", [Value.vInt 1])] "a" (by decide) (by decide)

/-! ## Claims about `derive_numeric` -/

theorem except_bind_ok {ε α : Type} (x : Except ε α) :
    (x.bind (fun a => Except.ok a)) = x := by
  cases x <;> rfl

theorem find?_assign_mem (n : String) (vs : List Value) :
    ∀ d : Dataset, hasCol d n = true →
      (d.map (fun c => if c.1 = n then (c.1, vs) else c)).find?
        (fun c => c.1 == n) = some (n, vs) := by
  intro d
  induction d with
  | nil => intro h; simp [hasCol] at h
  | cons hd tl ih =>
    intro h
    by_cases hh : hd.1 = n
    · simp [List.find?, hh]
    · have hhb : (hd.1 == n) = false := by simp [hh]
      simp only [List.map_cons, if_neg hh, List.find?, hhb, cond_false]
      exact ih (by simpa [hasCol, List.any_cons, hhb] using h)

theorem colValues_assignCol (d : Dataset) (n : String) (vs : List Value) :
    colValues (assignCol d n vs) n = vs := by
  unfold assignCol
  by_cases h : hasCol d n = true
  · rw [if_pos h]
    unfold colValues
    rw [find?_assign_mem n vs d h]
  · rw [if_neg h]
    unfold colValues
    have hnone : d.find? (fun c => c.1 == n) = none := by
      rw [List.find?_eq_none]
      intro c hc hb
      exact h (List.any_eq_true.mpr ⟨c, hc, hb⟩)
    rw [List.find?_append, hnone]
    simp [List.find?]

theorem zipWith_getD {α β γ : Type} (f : α → β → γ) (a : List α) (b : List β)
    (i : Nat) (x : α) (y : β) (z : γ) :
    i < a.length → i < b.length →
      (List.zipWith f a b).getD i z = f (a.getD i x) (b.getD i y) := by
  induction a generalizing b i with
  | nil => intro ha _; simp at ha
  | cons ah at' ih =>
    intro ha hb
    cases b with
    | nil => simp at hb
    | cons bh bt =>
      cases i with
      | zero => rfl
      | succ k =>
        simp only [List.zipWith, List.getD_cons_succ]
        exact ih bt k (Nat.lt_of_succ_lt_succ ha) (Nat.lt_of_succ_lt_succ hb)

def mkDeriveOp (l r n operator : String) (roundV : Option Value) : Value :=
  .vObj ([("type", .vStr "derive_numeric"), ("left_column", .vStr l),
          ("right_column", .vStr r), ("new_column", .vStr n),
          ("operator", .vStr operator)] ++
         (match roundV with | some v => [("round", v)] | none => []))

def mkDerivePlan (l r n operator : String) (roundV : Option Value) : Value :=
  .vObj [("operations", .vList [mkDeriveOp l r n operator roundV])]

theorem applyPlan_single_derive (d : Dataset) (l r n operator : String)
    (roundV : Option Value) :
    applyPlan d (mkDerivePlan l r n operator roundV) =
      deriveNumericOp d (mkDeriveOp l r n operator roundV) := by
  show (deriveNumericOp d (mkDeriveOp l r n operator roundV)).bind
      (fun a => Except.ok a) = _
  exact except_bind_ok _

theorem deriveNumericOp_none_eq (d : Dataset) (l r n operator : String)
    (hop : operator ∈ ["add", "sub", "mul", "div"])
    (hl : hasCol d l = true) (hr : hasCol d r = true) :
    deriveNumericOp d (mkDeriveOp l r n operator none) =
      Except.ok (assignCol d n
        (deriveOutput operator (colValues d l) (colValues d r))) := by
  have hreq : requireColumns d [Value.vStr l, Value.vStr r] = Except.ok () := by
    simp [requireColumns, hasColV, hl, hr]
  have e : deriveNumericOp d (mkDeriveOp l r n operator none) =
      (if operator ∈ ["add", "sub", "mul", "div"] then
        (requireColumns d [Value.vStr l, Value.vStr r]).map (fun _ =>
          assignCol d n (deriveOutput operator (colValues d l) (colValues d r)))
      else Except.error
        (TransErr.transform "derive_numeric.operator must be add, sub, mul, or div.")) :=
    rfl
  rw [e, if_pos hop, hreq]
  rfl

theorem deriveNumericOp_nonint_round_eq (d : Dataset) (l r n operator : String)
    (rv : Value) (hrv : isIntLike rv = false) :
    deriveNumericOp d (mkDeriveOp l r n operator (some rv)) =
      deriveNumericOp d (mkDeriveOp l r n operator none) := by
  have e1 : deriveNumericOp d (mkDeriveOp l r n operator (some rv)) =
      (if operator ∈ ["add", "sub", "mul", "div"] then
        (requireColumns d [Value.vStr l, Value.vStr r]).map (fun _ =>
          assignCol d n (if isIntLike rv then
            (deriveOutput operator (colValues d l) (colValues d r)).map (fun v =>
              match v with
              | Value.vFloat q => Value.vFloat (roundToDigits (intLikeVal rv) q)
              | _ => v)
          else deriveOutput operator (colValues d l) (colValues d r)))
      else Except.error
        (TransErr.transform "derive_numeric.operator must be add, sub, mul, or div.")) :=
    rfl
  have e2 : deriveNumericOp d (mkDeriveOp l r n operator none) =
      (if operator ∈ ["add", "sub", "mul", "div"] then
        (requireColumns d [Value.vStr l, Value.vStr r]).map (fun _ =>
          assignCol d n (deriveOutput operator (colValues d l) (colValues d r)))
      else Except.error
        (TransErr.transform "derive_numeric.operator must be add, sub, mul, or div.")) :=
    rfl
  rw [e1, e2]
  simp [hrv]

/-- C6: for every Dataset with the two operand columns present,
`derive_numeric` with operator `div` succeeds (never a division fault); the
derived column equals the element-wise quotient in which a zero denominator is
replaced by missing before dividing, so each row whose denominator cell is
zero — and each row with a non-numeric operand — carries null. -/
theorem c6_derive_div_zero_safe (d : Dataset) (l r n : String)
    (hl : hasCol d l = true) (hr : hasCol d r = true) :
    applyPlan d (mkDerivePlan l r n "div" none) =
      Except.ok (assignCol d n (deriveOutput "div" (colValues d l) (colValues d r))) ∧
    colValues (assignCol d n (deriveOutput "div" (colValues d l) (colValues d r))) n =
      deriveOutput "div" (colValues d l) (colValues d r) ∧
    (deriveOutput "div" (colValues d l) (colValues d r)).length =
      min (colValues d l).length (colValues d r).length ∧
    ∀ i, i < (colValues d l).length → i < (colValues d r).length →
      (toNumeric ((colValues d r).getD i .vNull) = some 0 ∨
        toNumeric ((colValues d l).getD i .vNull) = none ∨
        toNumeric ((colValues d r).getD i .vNull) = none) →
      (deriveOutput "div" (colValues d l) (colValues d r)).getD i .vNull = .vNull := by
  refine ⟨?_, colValues_assignCol d n _, ?_, ?_⟩
  · rw [applyPlan_single_derive]
    exact deriveNumericOp_none_eq d l r n "div" (by simp) hl hr
  · simp [deriveOutput]
  · intro i hi1 hi2 hcase
    rw [deriveOutput, zipWith_getD _ (colValues d l) (colValues d r) i
      Value.vNull Value.vNull Value.vNull hi1 hi2]
    rcases hln : toNumeric ((colValues d l).getD i Value.vNull) with _ | a <;>
      rcases hrn : toNumeric ((colValues d r).getD i Value.vNull) with _ | b <;>
      simp only []
    · rcases hcase with h0 | hml | hmr
      · rw [hrn] at h0; exact absurd h0 (by simp)
      · rfl
      · rfl
    · rcases hcase with h0 | hml | hmr
      · rw [hrn] at h0
        have hb0 : b = 0 := by simpa using h0
        simp [hb0]
      · rw [hln] at hml; exact absurd hml (by simp)
      · rw [hrn] at hmr; exact absurd hmr (by simp)

def c6d : Dataset :=
  [("x", [Value.vInt 4, Value.vStr "abc", Value.vInt 6]),
   ("y", [Value.vInt 0, Value.vInt 2, Value.vInt 3])]

/-- Witness for C6 at a concrete input: the first row of amount/divisor data
has denominator 0 and its derived cell is null. -/
theorem c6_derive_div_zero_safe_witness :
    (deriveOutput "div" (colValues c6d "x") (colValues c6d "y")).getD 0
      Value.vNull = Value.vNull :=
  (c6_derive_div_zero_safe c6d "x" "y" "z" (by decide) (by decide)).2.2.2
    0 (by decide) (by decide) (Or.inl (by decide))

/-- C10: a `derive_numeric` operation whose `round` field is present but not a
Python integer (for example a float or a numeric string) neither fails nor
rounds: the result is exactly the result of the same operation without the
`round` field, i.e. the unrounded arithmetic column. -/
theorem c10_round_non_integer (d : Dataset) (l r n operator : String) (rv : Value)
    (hop : operator ∈ ["add", "sub", "mul", "div"])
    (hl : hasCol d l = true) (hr : hasCol d r = true)
    (hrv : isIntLike rv = false) :
    applyPlan d (mkDerivePlan l r n operator (some rv)) =
      applyPlan d (mkDerivePlan l r n operator none) ∧
    applyPlan d (mkDerivePlan l r n operator (some rv)) =
      Except.ok (assignCol d n
        (deriveOutput operator (colValues d l) (colValues d r))) := by
  have h1 : applyPlan d (mkDerivePlan l r n operator (some rv)) =
      applyPlan d (mkDerivePlan l r n operator none) := by
    rw [applyPlan_single_derive, applyPlan_single_derive]
    exact deriveNumericOp_nonint_round_eq d l r n operator rv hrv
  refine ⟨h1, ?_⟩
  rw [h1, applyPlan_single_derive]
  exact deriveNumericOp_none_eq d l r n operator hop hl hr

/-- Witness for C10 at a concrete input: a float-valued `round` field on an
`add` derivation is ignored and the operation succeeds unrounded. -/
theorem c10_round_non_integer_witness :
    applyPlan c6d (mkDerivePlan "x" "y" "z" "add" (some (Value.vFloat (5/2)))) =
      applyPlan c6d (mkDerivePlan "x" "y" "z" "add" none) :=
  (c10_round_non_integer c6d "x" "y" "z" "add" (Value.vFloat (5/2))
    (by simp) (by decide) (by decide) (by decide)).1

/-! ## Claims about the Oracle -/

theorem isClarifyShaped_clarifyResponse (q : String) (ch : List String)
    (cid : Option String) (fresh : String) :
    isClarifyShaped (clarifyResponse q ch cid fresh) = true := rfl

theorem isPlanShaped_response (raw : Option Value) :
    isPlanShaped (Value.vObj [("type", Value.vStr "plan"),
      ("plan", sanitizePlanPayload raw), ("warnings", Value.vList [])]) = true := rfl

theorem sanitized_ops_supported (raw : Option Value) (op : Value)
    (hmem : op ∈ sanitizedOpsList raw) :
    ∃ s, getField op "type" = some (Value.vStr s) ∧ s ∈ supportedOperations := by
  unfold sanitizedOpsList at hmem
  rcases raw with _ | v
  · simp at hmem
  · cases v <;> try simp at hmem
    case vObj fields =>
      rcases hlk : fields.lookup "operations" with _ | w
      · rw [hlk] at hmem; simp at hmem
      · rw [hlk] at hmem
        cases w <;> try simp at hmem
        case vList ops =>
          have hk := hmem.2
          unfold keepOperation at hk
          cases op <;> try simp at hk
          case vObj ofs =>
            rcases hgt : getField (Value.vObj ofs) "type" with _ | tv
            · rw [hgt] at hk; simp at hk
            · rw [hgt] at hk
              cases tv <;> try simp at hk
              case vStr s =>
                exact ⟨s, rfl, hk⟩

/-- C4: sanitization never fails and returns an operations list; every
operation surviving sanitization carries a supported `type`, so every
operation whose type is unsupported is excluded; and when sanitization leaves
the operations list empty, the Oracle's normalization returns a
ClarificationRequest rather than an empty Plan or a validation error. -/
theorem c4_sanitizer_drops_unsupported (raw : Option Value) (payload : Value)
    (cid : Option String) (fresh : String) :
    (getField (sanitizePlanPayload raw) "operations" =
      some (Value.vList (sanitizedOpsList raw))) ∧
    (∀ op ∈ sanitizedOpsList raw,
      ∃ s, getField op "type" = some (Value.vStr s) ∧ s ∈ supportedOperations) ∧
    (∀ op, (∀ s, getField op "type" = some (Value.vStr s) → s ∉ supportedOperations) →
      op ∉ sanitizedOpsList raw) ∧
    (getField payload "type" = some (Value.vStr "plan") →
      sanitizedOpsList (getField payload "plan") = [] →
      isClarifyShaped (normalizeLlmPayload payload cid fresh) = true) := by
  refine ⟨rfl, fun op h => sanitized_ops_supported raw op h, ?_, ?_⟩
  · intro op hbad hmem
    obtain ⟨s, hs, hsup⟩ := sanitized_ops_supported raw op hmem
    exact hbad s hs hsup
  · intro htype hempty
    unfold normalizeLlmPayload
    rw [htype]
    show isClarifyShaped (
      if !(sanitizedOpsList (getField payload "plan")).isEmpty then
        Value.vObj [("type", Value.vStr "plan"),
          ("plan", sanitizePlanPayload (getField payload "plan")),
          ("warnings", Value.vList [])]
      else clarifyResponse genericClarifyQuestion genericClarifyChoices cid fresh) = true
    rw [hempty]
    exact isClarifyShaped_clarifyResponse _ _ _ _

def c4payload : Value :=
  Value.vObj [("type", Value.vStr "plan"),
    ("plan", Value.vObj [("operations",
      Value.vList [Value.vObj [("type", Value.vStr "execute_python")]])])]

/-- Witness for C4 at a concrete input: a plan response containing only an
unsupported `execute_python` operation sanitizes to an empty list and the
Oracle degrades to a clarification. -/
theorem c4_sanitizer_drops_unsupported_witness :
    isClarifyShaped (normalizeLlmPayload c4payload none "tok") = true :=
  (c4_sanitizer_drops_unsupported (getField c4payload "plan") c4payload
    none "tok").2.2.2 rfl rfl

/-- C5: whatever the outcome of the external call — no client configured, a
raised transport or authentication failure with any status, a non-dict or
unparsable body, or any parsed payload shape — the Oracle's plan request
returns a well-formed value of type plan or of type clarify, never a raw
failure. -/
theorem c5_oracle_wellformed (outcome : LLMOutcome) (cid : Option String)
    (fresh : String) :
    isPlanShaped (createPlanInternal outcome cid fresh) = true ∨
    isClarifyShaped (createPlanInternal outcome cid fresh) = true := by
  cases outcome with
  | noClient => exact Or.inr (isClarifyShaped_clarifyResponse _ _ _ _)
  | raised status =>
      right
      show isClarifyShaped (if status = some 401 ∨ status = some 403 then
          clarifyResponse authClarifyQuestion authClarifyChoices cid fresh
        else clarifyResponse genericClarifyQuestion genericClarifyChoices cid fresh) = true
      split
      · exact isClarifyShaped_clarifyResponse _ _ _ _
      · exact isClarifyShaped_clarifyResponse _ _ _ _
  | responded parsed =>
      rcases parsed with _ | v
      · exact Or.inr (isClarifyShaped_clarifyResponse _ _ _ _)
      · cases v <;> try exact Or.inr (isClarifyShaped_clarifyResponse _ _ _ _)
        case vObj fields =>
          show isPlanShaped (normalizeLlmPayload (Value.vObj fields) cid fresh) = true ∨
            isClarifyShaped (normalizeLlmPayload (Value.vObj fields) cid fresh) = true
          unfold normalizeLlmPayload
          split
          · exact Or.inr (isClarifyShaped_clarifyResponse _ _ _ _)
          · dsimp only
            split
            · exact Or.inl (isPlanShaped_response _)
            · exact Or.inr (isClarifyShaped_clarifyResponse _ _ _ _)
          · exact Or.inr (isClarifyShaped_clarifyResponse _ _ _ _)

/-- C9 counterexample: the stored clarify_id is the trimmed carried value, so
for a response clarify_id of " x " the stored token differs from the carried
one; and for a malformed response (no `type` field) in a resume flow the
clarify_id is carried over from the request, not freshly generated. -/
theorem c9_clarify_id_counterexample :
    getField (clarifyResponse "q" [] (some " x ") "fresh123") "clarify_id" =
      some (Value.vStr "x") ∧
    "x" ≠ " x " ∧
    getField (createPlanInternal (.responded (some (Value.vObj [])))
      (some "prev-id") "fresh123") "clarify_id" = some (Value.vStr "prev-id") ∧
    "prev-id" ≠ "fresh123" :=
  ⟨rfl, by decide, rfl, by decide⟩

/-- C9 amended: every ClarificationRequest carries a non-empty clarify_id. It
equals the trimmed carried clarify_id when the response carries a string that
is non-empty after trimming (stored trimmed, not as carried). A blank-string
response clarify_id is still a string, so it passes the isinstance check,
bypasses the request's clarify_id, and a fresh token is generated. Only when
the response clarify_id is absent or not a string does a resume flow fall
back to the request's clarify_id (trimmed, when non-empty after trimming);
with no usable id from either side the token is freshly generated. In the
initial request flow a response with `type` missing entirely yields the
generic fallback question and a freshly generated non-empty clarify_id. -/
theorem c9_clarify_id_resumable (q : String) (choices : List String)
    (cid : Option String) (fresh : String) (hf : fresh ≠ "") :
    (∃ s, getField (clarifyResponse q choices cid fresh) "clarify_id" =
        some (Value.vStr s) ∧ s ≠ "") ∧
    (∀ s, cid = some s → pyStrip s ≠ "" →
      getField (clarifyResponse q choices cid fresh) "clarify_id" =
        some (Value.vStr (pyStrip s))) ∧
    (cid = none →
      getField (clarifyResponse q choices cid fresh) "clarify_id" =
        some (Value.vStr fresh)) ∧
    (∀ s, cid = some s → pyStrip s = "" →
      getField (clarifyResponse q choices cid fresh) "clarify_id" =
        some (Value.vStr fresh)) ∧
    (getField (normalizeLlmPayload
        (Value.vObj [("type", Value.vStr "clarify"), ("clarify_id", Value.vStr "   ")])
        (some "req-7") fresh) "clarify_id" = some (Value.vStr fresh)) ∧
    (getField (normalizeLlmPayload
        (Value.vObj [("type", Value.vStr "clarify")])
        (some " req-7 ") fresh) "clarify_id" = some (Value.vStr "req-7")) ∧
    (getField (createPlanInternal (.responded (some (Value.vObj [("foo", Value.vStr q)])))
        none fresh) "question" = some (Value.vStr genericClarifyQuestion)) ∧
    (getField (createPlanInternal (.responded (some (Value.vObj [("foo", Value.vStr q)])))
        none fresh) "clarify_id" = some (Value.vStr fresh)) := by
  refine ⟨?_, ?_, ?_, ?_, rfl, rfl, rfl, rfl⟩
  · rcases cid with _ | s
    · exact ⟨fresh, rfl, hf⟩
    · by_cases hs : pyStrip s = ""
      · refine ⟨fresh, ?_, hf⟩
        show some (Value.vStr (if pyStrip s ≠ "" then pyStrip s else fresh)) =
          some (Value.vStr fresh)
        rw [if_neg (by simpa using hs)]
      · refine ⟨pyStrip s, ?_, hs⟩
        show some (Value.vStr (if pyStrip s ≠ "" then pyStrip s else fresh)) =
          some (Value.vStr (pyStrip s))
        rw [if_pos hs]
  · intro s hcid hns
    subst hcid
    show some (Value.vStr (if pyStrip s ≠ "" then pyStrip s else fresh)) =
      some (Value.vStr (pyStrip s))
    rw [if_pos hns]
  · intro hcid
    subst hcid
    rfl
  · intro s hcid hns
    subst hcid
    show some (Value.vStr (if pyStrip s ≠ "" then pyStrip s else fresh)) =
      some (Value.vStr fresh)
    rw [if_neg (by simpa using hns)]

/-- Witness for C9 at a concrete input: a carried clarify_id of " tok-1 " is
stored trimmed as "tok-1". -/
theorem c9_clarify_id_resumable_witness :
    getField (clarifyResponse "Serve piu contesto" [] (some " tok-1 ") "f8a0")
      "clarify_id" = some (Value.vStr "tok-1") :=
  (c9_clarify_id_resumable "Serve piu contesto" [] (some " tok-1 ") "f8a0"
    (by decide)).2.1 " tok-1 " rfl (by decide)

end ExcelAI
